import Mathlib

/-!
Verification of the micronota cmscan/cmsearch tabular-output parser
(`micronota/parsers/cmscan.py`) against its natural-language specification.

The Python module is shallowly embedded below.  Text lines are `String`s,
a file is a `List String`, Python exceptions are an explicit error type,
and the `%`-style message formatting of Python is modelled explicitly
(its argument-count checking is observable behaviour).  The scikit-bio
collaborator helpers (`_line_generator`, `_too_many_blanks`) are not part
of this repository; they are modelled from the description of the
collaborator interfaces in the specification, and are marked as such.
-/

/-- The six whitespace characters recognised by Python `str.split()` /
`str.strip()` (space, tab, newline, carriage return, vertical tab, form feed). -/
def pyIsSpace (c : Char) : Bool :=
  c == ' ' || c == '\t' || c == '\n' || c == '\r' || c == '\x0b' || c == '\x0c'

/-- Helper for `pySplit`: accumulate the current word (reversed) and the
list of completed words (reversed). -/
def splitWsAux : List Char → List Char → List (List Char) → List (List Char)
  | [], cur, acc => if cur.isEmpty then acc.reverse else (cur.reverse :: acc).reverse
  | c :: cs, cur, acc =>
    if pyIsSpace c then
      if cur.isEmpty then splitWsAux cs [] acc else splitWsAux cs [] (cur.reverse :: acc)
    else splitWsAux cs (c :: cur) acc

/-- Python `line.split()` with no separator argument: split on runs of
whitespace, with no empty fields produced. -/
def pySplit (s : String) : List String :=
  List.map String.mk (splitWsAux s.data [] [])

/-- Python `line.strip()`: remove leading and trailing whitespace. -/
def pyStrip (s : String) : String :=
  String.mk (List.reverse (List.dropWhile pyIsSpace (List.reverse (List.dropWhile pyIsSpace s.data))))

/-- A line that the scikit-bio line generator treats as blank: empty or
whitespace-only (`not line or line.isspace()`). -/
def isBlank (s : String) : Bool := s.data.all pyIsSpace

/-- Python `line.startswith` applied to the hash character. -/
def startsHash (s : String) : Bool :=
  match s.data with
  | [] => false
  | c :: _ => c == '#'

/-- Character-list prefix test (used for Python `str.startswith`). -/
def hasPre : List Char → List Char → Bool
  | [], _ => true
  | _ :: _, [] => false
  | p :: ps, c :: cs => p == c && hasPre ps cs

/-- Python `s.startswith(pre)`. -/
def beginsWith (s pre : String) : Bool := hasPre pre.data s.data

/-- Python `field.isdigit()` on the ASCII text of this format: nonempty and
all characters are decimal digits. -/
def pyIsDigit (s : String) : Bool :=
  !s.data.isEmpty && s.data.all (fun c => '0' ≤ c && c ≤ '9')

/-- Python `int(field)` for a string of decimal digits. -/
def strToNat (s : String) : Nat :=
  s.data.foldl (fun n c => n * 10 + (c.toNat - '0'.toNat)) 0

/-- A value handed to Python `%`-formatting: a string or an integer. -/
inductive PyVal where
  | s (v : String)
  | i (n : Nat)
deriving DecidableEq

/-- Python `str()` of a formatting value. -/
def pyStrOf : PyVal → String
  | PyVal.s v => v
  | PyVal.i n => Nat.repr n

/-- Python `%`-formatting over the `%s`/`%i` specifiers used by the module.
Returns `none` when formatting raises `TypeError` (unconsumed arguments,
missing arguments, or an `%i` applied to a non-integer). -/
def pyFormatAux : List Char → List PyVal → Option (List Char)
  | [], [] => some []
  | [], _ :: _ => none
  | '%' :: 's' :: rest, args =>
    match args with
    | [] => none
    | a :: args2 => Option.map (fun t => (pyStrOf a).data ++ t) (pyFormatAux rest args2)
  | '%' :: 'i' :: rest, args =>
    match args with
    | PyVal.i n :: args2 => Option.map (fun t => (Nat.repr n).data ++ t) (pyFormatAux rest args2)
    | _ => none
  | c :: rest, args => Option.map (fun t => c :: t) (pyFormatAux rest args)

/-- Python `fmt % args`, `none` on a formatting `TypeError`. -/
def pyFormat (fmt : String) (args : List PyVal) : Option String :=
  Option.map String.mk (pyFormatAux fmt.data args)

/-- The exceptions that the record parser can raise: the distinguished
`CmscanFormatError`, the `TypeError` raised by a malformed `%`-format call,
and the `IndexError` of an out-of-range list access. -/
inductive PyErr where
  | cmscanFormatError (msg : String)
  | typeError
  | indexError
deriving DecidableEq

/-- `raise CmscanFormatError(fmt % args)`: if building the message itself
fails, the exception that escapes is the formatting `TypeError`. -/
def raiseFmt (fmt : String) (args : List PyVal) : PyErr :=
  match pyFormat fmt args with
  | some m => PyErr.cmscanFormatError m
  | none => PyErr.typeError

/-- Explicit bind on `Except PyErr` (kept as a plain definition so proofs can
unfold it predictably). -/
def exBind : Except PyErr α → (α → Except PyErr β) → Except PyErr β
  | Except.error e, _ => Except.error e
  | Except.ok a, f => f a

/-- Python `fields[i]`: `IndexError` when the index is out of range. -/
def getF (fields : List String) (i : Nat) : Except PyErr String :=
  match fields.get? i with
  | some v => Except.ok v
  | none => Except.error PyErr.indexError

/-- The 18 canonical column names (`_COLUMNS` in the source). -/
def _COLUMNS : List String :=
  [("MODEL_NAME"), ("MODEL_ACCESSION"), ("SEQUENCE_NAME"),
   ("SEQUENCE_ACCESSION"), ("TYPE_OF_MODEL"), ("MODEL_START_POSITION"),
   ("MODEL_END_POSITION"), ("SEQUENCE_START_POSITION"),
   ("SEQUENCE_END_POSITION"), ("STRAND"), ("TRUNCATED"), ("PASS"),
   ("GC_CONTENT"), ("BIAS"), ("BITSCORE"), ("EVALUE"), ("INC"), ("DESCRIPTION")]

/-- Python `list.index`: position of the first occurrence. -/
def idxOfAux (k : String) : List String → Nat
  | [] => 0
  | c :: cs => if c = k then 0 else idxOfAux k cs + 1

/-- `_COLUMNS.index(key)`. -/
def colIndex (k : String) : Nat := idxOfAux k _COLUMNS

/-- The attribute set stored for one hit.  The source stores these as a
string-keyed dict and wraps it in a scikit-bio `Feature` (an immutable
hashable frozen dict compared by its key-value pairs); since the key set is
the same for every hit, a structure with structural equality is a faithful
model.  Note that `SEQUENCE_START_POSITION` and `SEQUENCE_END_POSITION` are
*not* part of the attribute set: the source skips them in its copy loop and
emits them only inside the interval. -/
structure Attributes where
  MODEL_NAME : String
  MODEL_ACCESSION : String
  SEQUENCE_NAME : String
  SEQUENCE_ACCESSION : String
  TYPE_OF_MODEL : String
  MODEL_START_POSITION : String
  MODEL_END_POSITION : String
  STRAND : String
  TRUNCATED : String
  PASS : String
  GC_CONTENT : String
  BIAS : String
  BITSCORE : String
  EVALUE : String
  INC : String
  DESCRIPTION : String
deriving DecidableEq

def seqStartKey : String := "SEQUENCE_START_POSITION"

def seqEndKey : String := "SEQUENCE_END_POSITION"

def strandKey : String := "STRAND"

def colWord : String := "Column"

def andWord : String := "and"

def spaceStr : String := " "

def dotStr : String := "."

def quotStr : String := "\x27"

def quotDotStr : String := "\x27."

def plusStr : String := "+"

def minusStr : String := "-"

def progCMSCAN : String := "CMSCAN"

def progCMSEARCH : String := "CMSEARCH"

/-- Shared `%`-format template of the two coordinate error messages. -/
def fmtCoord : String := "%s %i %s \x27%s\x27."

def msgStartTail : String :=
  "must be an integer value for the start position of the hit. Here, it is"

def msgEndTail : String :=
  "must be an integer value for the end position of the hit. Here, it is"

def fmtOrder : String := "%s %i %s %i %s"

def msgPlusA : String :=
  "On the forward strand (+), start position of a hit must always be smaller than its end position. This is not true for the hit between"

def msgPlusB : String :=
  ". It might be, that this hit is in fact on the reverse strand. Please check strand orientation and positions."

def msgMinusA : String :=
  "On the reverse strand (-), start position of a hit must always be larger than its end position. This is not true for the hit between"

def msgMinusB : String :=
  ". It might be, that this hit is in fact on the forward strand. Please check strand orientation and positions."

def fmtStrand : String := "%s \x27%s\x27 %s %i. %s"

def msgStrandA : String := "Unknown strand character"

def msgStrandB : String := "in column"

def msgStrandC : String :=
  "Valid characters are \x27+\x27 for the forward strand and \x27-\x27 for the reverse strand."

def msgProgErr : String :=
  "Argument \x27program\x27 must be either \x27CMSEARCH\x27 or \x27CMSCAN\x27!"

/-- Validation of the sequence-start field (source lines 220-230): parse as
an integer if `isdigit`, otherwise raise a `CmscanFormatError` naming the
column index and the offending literal. -/
def readStart (fields : List String) : Except PyErr Nat :=
  exBind (getF fields (colIndex seqStartKey)) fun f7 =>
    if pyIsDigit f7 then Except.ok (strToNat f7)
    else Except.error (raiseFmt fmtCoord
      [PyVal.s colWord, PyVal.i (colIndex seqStartKey), PyVal.s msgStartTail, PyVal.s f7])

/-- Validation of the sequence-end field (source lines 232-243).  Note the
source passes five arguments to a four-specifier format string (a stray
`"."` argument), so the error path raises `TypeError`, not
`CmscanFormatError`. -/
def readEnd (fields : List String) : Except PyErr Nat :=
  exBind (getF fields (colIndex seqEndKey)) fun f8 =>
    if pyIsDigit f8 then Except.ok (strToNat f8)
    else Except.error (raiseFmt fmtCoord
      [PyVal.s colWord, PyVal.i (colIndex seqEndKey), PyVal.s msgEndTail, PyVal.s f8, PyVal.s dotStr])

/-- Strand validation and coordinate normalization (source lines 245-279):
`+` requires start ≤ end and keeps the bounds in order; `-` requires
start ≥ end and swaps them; anything else raises a format error. -/
def normStrand (fields : List String) (hitStart hitEnd : Nat) : Except PyErr (Nat × Nat) :=
  exBind (getF fields (colIndex strandKey)) fun hitOrientation =>
    if hitOrientation = plusStr then
      if hitEnd < hitStart then
        Except.error (raiseFmt fmtOrder
          [PyVal.s msgPlusA, PyVal.i hitStart, PyVal.s andWord, PyVal.i hitEnd, PyVal.s msgPlusB])
      else Except.ok (hitStart, hitEnd)
    else if hitOrientation = minusStr then
      if hitStart < hitEnd then
        Except.error (raiseFmt fmtOrder
          [PyVal.s msgMinusA, PyVal.i hitStart, PyVal.s andWord, PyVal.i hitEnd, PyVal.s msgMinusB])
      else Except.ok (hitEnd, hitStart)
    else
      Except.error (raiseFmt fmtStrand
        [PyVal.s msgStrandA, PyVal.s hitOrientation, PyVal.s msgStrandB,
         PyVal.i (colIndex strandKey), PyVal.s msgStrandC])

/-- Program-dependent extraction of (sequence name, sequence accession,
model name, model accession) from columns 0-3 (source lines 285-297).
`CMSEARCH` reads the sequence pair from columns 0-1; `CMSCAN` reads it from
columns 2-3; any other program value raises a format error. -/
def variantNames (program : String) (fields : List String) :
    Except PyErr (String × String × String × String) :=
  if program = progCMSEARCH then
    exBind (getF fields 0) fun f0 => exBind (getF fields 1) fun f1 =>
    exBind (getF fields 2) fun f2 => exBind (getF fields 3) fun f3 =>
    Except.ok (f0, f1, f2, f3)
  else if program = progCMSCAN then
    exBind (getF fields 2) fun f2 => exBind (getF fields 3) fun f3 =>
    exBind (getF fields 0) fun f0 => exBind (getF fields 1) fun f1 =>
    Except.ok (f2, f3, f0, f1)
  else Except.error (PyErr.cmscanFormatError msgProgErr)

/-- Build the full attribute set: the variant-dependent name fields plus the
copy loop over the remaining canonical columns (source lines 299-308), in
source order. -/
def mkAttributes (program : String) (fields : List String) : Except PyErr Attributes :=
  exBind (variantNames program fields) fun names =>
  exBind (getF fields (colIndex ("TYPE_OF_MODEL"))) fun f4 =>
  exBind (getF fields (colIndex ("MODEL_START_POSITION"))) fun f5 =>
  exBind (getF fields (colIndex ("MODEL_END_POSITION"))) fun f6 =>
  exBind (getF fields (colIndex ("STRAND"))) fun f9 =>
  exBind (getF fields (colIndex ("TRUNCATED"))) fun f10 =>
  exBind (getF fields (colIndex ("PASS"))) fun f11 =>
  exBind (getF fields (colIndex ("GC_CONTENT"))) fun f12 =>
  exBind (getF fields (colIndex ("BIAS"))) fun f13 =>
  exBind (getF fields (colIndex ("BITSCORE"))) fun f14 =>
  exBind (getF fields (colIndex ("EVALUE"))) fun f15 =>
  exBind (getF fields (colIndex ("INC"))) fun f16 =>
  exBind (getF fields (colIndex ("DESCRIPTION"))) fun f17 =>
  Except.ok ⟨names.2.2.1, names.2.2.2, names.1, names.2.1,
             f4, f5, f6, f9, f10, f11, f12, f13, f14, f15, f16, f17⟩

/-- Processing of one tokenized data line, in source evaluation order:
start coordinate, end coordinate, strand normalization, attribute build.
Returns the attribute set and the normalized interval. -/
def parseFields (program : String) (fields : List String) :
    Except PyErr (Attributes × Nat × Nat) :=
  exBind (readStart fields) fun hitStart =>
  exBind (readEnd fields) fun hitEnd =>
  exBind (normStrand fields hitStart hitEnd) fun se =>
  exBind (mkAttributes program fields) fun attributes =>
  Except.ok (attributes, se.1, se.2)

/-- Processing of one (already stripped) data line of text. -/
def parseLine (program : String) (line : String) : Except PyErr (Attributes × Nat × Nat) :=
  parseFields program (pySplit line)

/-- One parsed hit: its attribute set and its normalized interval. -/
abbrev Hit : Type := Attributes × Nat × Nat

/-- One emitted annotation collection: the Python dict from `Feature`
attribute sets to lists of intervals, modelled as an insertion-ordered
association list with Python dict semantics. -/
abbrev HitGroup : Type := List (Attributes × List (Nat × Nat))

/-- Python dict assignment `d[k] = v`: replace in place when the key is
already present (keeping its position), otherwise append. -/
def dictInsert : HitGroup → Attributes → List (Nat × Nat) → HitGroup
  | [], k, v => [(k, v)]
  | (k0, v0) :: rest, k, v =>
    if k0 = k then (k0, v) :: rest else (k0, v0) :: dictInsert rest k v

/-- The per-line emission test of the source,
`currentsequence != attributes[SEQUENCE_NAME] and currentsequence is not False`:
the cursor starts as the sentinel `False` (here `none`) and a group is
emitted when the cursor holds a different sequence name. -/
def yieldCond : Option String → String → Bool
  | none, _ => false
  | some c, n => c != n

/-- The main loop of `_parse_records` (source lines 213-325) over the lines
delivered by `_line_generator(fh, skip_blanks=True, strip=True)`, which is
modelled from the collaborator interface of the spec: blank lines are skipped and
the remaining lines are stripped.  Result: the list of yielded groups
(in order), and the exception that aborted the generator, if any. -/
def parseRecordsAux (program : String) :
    Option String → HitGroup → List String → List HitGroup × Option PyErr
  | _, ann, [] => ([ann], none)
  | cur, ann, raw :: rest =>
    if isBlank raw then parseRecordsAux program cur ann rest
    else
      let line := pyStrip raw
      if startsHash line then parseRecordsAux program cur ann rest
      else
        match parseLine program line with
        | Except.error e => ([], some e)
        | Except.ok (attrs, st, en) =>
          if yieldCond cur attrs.SEQUENCE_NAME then
            let r := parseRecordsAux program (some attrs.SEQUENCE_NAME)
                       (dictInsert [] attrs [(st, en)]) rest
            (ann :: r.1, r.2)
          else
            parseRecordsAux program (some attrs.SEQUENCE_NAME)
              (dictInsert ann attrs [(st, en)]) rest

/-- `_parse_records(fh)`: the program variant is the local constant
`program = CMSCAN` of the source (the caller cannot supply it), the
cursor starts at the sentinel and the accumulator starts empty. -/
def _parse_records (input : List String) : List HitGroup × Option PyErr :=
  parseRecordsAux progCMSCAN none [] input

/-- Count of leading blank lines of the input. -/
def leadingBlanks : List String → Nat
  | [] => 0
  | l :: ls => if isBlank l then leadingBlanks ls + 1 else 0

/-- Modelled from the spec: the scikit-bio collaborator predicate
`_too_many_blanks(fh, maxBlanks)` — true when the input has more than
`maxBlanks` leading blank lines. -/
def _too_many_blanks (input : List String) (maxBlanks : Nat) : Bool :=
  decide (maxBlanks < leadingBlanks input)

/-- Modelled from the spec: `next(_line_generator(fh, skip_blanks=True,
strip=False))` — the first non-blank line, unstripped; `none` models the
`StopIteration` of an exhausted input. -/
def firstNonBlank : List String → Option String
  | [] => none
  | l :: ls => if isBlank l then firstNonBlank ls else some l

def hdrLit : String := "#target name"

/-- The sniffer `_cmscan_sniffer` (source lines 168-182): reject more than 5
leading blank lines, reject empty input, and otherwise match exactly when
the first non-blank line starts with the literal `#target name`.  The second
component is the (always empty) options record. -/
def _cmscan_sniffer (input : List String) : Bool × List (String × String) :=
  if _too_many_blanks input 5 then (false, [])
  else
    match firstNonBlank input with
    | none => (false, [])
    | some line => if beginsWith line hdrLit then (true, []) else (false, [])

/-- Reference definition: the data lines of an input, i.e. the non-blank
lines, stripped, that do not start with `#`. -/
def dataLines : List String → List String
  | [] => []
  | l :: ls =>
    if isBlank l then dataLines ls
    else if startsHash (pyStrip l) then dataLines ls
    else pyStrip l :: dataLines ls

/-- Reference definition: parse every data line, failing on the first
erroneous one. -/
def parseAll (program : String) : List String → Except PyErr (List Hit)
  | [] => Except.ok []
  | l :: ls =>
    exBind (parseLine program l) fun h =>
    exBind (parseAll program ls) fun hs =>
    Except.ok (h :: hs)

/-- Reference definition: pure grouping of an already-parsed hit list with
the cursor/accumulator discipline of the source loop. -/
def groupLoop : Option String → HitGroup → List Hit → List HitGroup
  | _, ann, [] => [ann]
  | cur, ann, h :: rest =>
    if yieldCond cur h.1.SEQUENCE_NAME then
      ann :: groupLoop (some h.1.SEQUENCE_NAME) (dictInsert [] h.1 [h.2]) rest
    else
      groupLoop (some h.1.SEQUENCE_NAME) (dictInsert ann h.1 [h.2]) rest

/-- Reference definition: maximal runs of consecutive hits sharing a
sequence name (`cur` is the reversed current run). -/
def runsAux (name : String) (cur : List Hit) : List Hit → List (List Hit)
  | [] => [cur.reverse]
  | h :: rest =>
    if h.1.SEQUENCE_NAME = name then runsAux name (h :: cur) rest
    else cur.reverse :: runsAux h.1.SEQUENCE_NAME [h] rest

/-- Reference definition: split a hit list into its maximal runs of equal
sequence name. -/
def runs : List Hit → List (List Hit)
  | [] => []
  | h :: rest => runsAux h.1.SEQUENCE_NAME [h] rest

/-- Reference definition: the group (Python dict) built from one run of
hits by successive dict assignment. -/
def buildGroup (hs : List Hit) : HitGroup :=
  hs.foldl (fun g h => dictInsert g h.1 [h.2]) []

/-- The exact message of the forward-strand coordinate-order error, as the
format string of the source produces it: it names both endpoint values and says
the hit may actually be on the reverse strand. -/
def plusOrderMsg (s e : Nat) : String :=
  msgPlusA ++ (spaceStr ++ (Nat.repr s ++ (spaceStr ++ (andWord ++
    (spaceStr ++ (Nat.repr e ++ (spaceStr ++ msgPlusB)))))))

/-- The exact message of a non-numeric sequence-start error: it names
column index 7 and the offending literal. -/
def coordStartErrMsg (v : String) : String :=
  colWord ++ (spaceStr ++ (Nat.repr 7 ++ (spaceStr ++ (msgStartTail ++
    (spaceStr ++ (quotStr ++ (v ++ quotDotStr)))))))

/-! Concrete inputs used by the claim theorems and witnesses. -/

/-- First of two consecutive hit lines from the docstring of the module
example: same attributes, interval 4977823-4980727. -/
def c1LineA : String :=
  "LSU_rRNA_bacteria      RF02541   gi|15829254|ref|NC_002695.1| -          cm        1     2925  4977823  4980727      +    no    1 0.53  45.4 2889.8         0 !   -"

/-- Second docstring hit line: identical to `c1LineA` except for the
interval 5018849-5021753. -/
def c1LineB : String :=
  "LSU_rRNA_bacteria      RF02541   gi|15829254|ref|NC_002695.1| -          cm        1     2925  5018849  5021753      +    no    1 0.53  45.4 2889.8         0 !   -"

/-- The attribute set shared by `c1LineA` and `c1LineB` (the coordinates are
not part of the attribute set). -/
def c1Attrs : Attributes :=
  ⟨"LSU_rRNA_bacteria", "RF02541", "gi|15829254|ref|NC_002695.1|", "-", "cm",
   "1", "2925", "+", "no", "1", "0.53", "45.4", "2889.8", "0", "!", "-"⟩

/-- A data line whose free-text description is `description of target`. -/
def c2Line : String := "m a s b cm 1 2 3 4 + no 1 g bi sc e ! description of target"

def c2Attrs : Attributes :=
  ⟨"m", "a", "s", "b", "cm", "1", "2", "+", "no", "1", "g", "bi", "sc", "e", "!", "description"⟩

/-- A reverse-strand data line with start 500 and end 300. -/
def c3Line : String := "m a s b cm 1 2 500 300 - no 1 g bi sc e ! d"

/-- A forward-strand data line with start 500 greater than end 300. -/
def c4Line : String := "m a s b cm 1 2 500 300 + no 1 g bi sc e ! d"

/-- A data line with a non-numeric sequence-start field. -/
def c5BadStart : String := "m a s b cm 1 2 abc 4 + no 1 g bi sc e ! d"

/-- A data line with a non-numeric sequence-end field. -/
def c5BadEnd : String := "m a s b cm 1 2 100 abc + no 1 g bi sc e ! d"

/-- A small input with a comment line, a blank line, and two data lines on
two different query sequences. -/
def c6Input : List String :=
  ["#target name and other header text",
   "m1 a1 s1 b1 cm 1 2 3 4 + no 1 g bi sc e ! d",
   "",
   "m1 a1 s2 b1 cm 1 2 5 6 + no 1 g bi sc e ! d"]

def c6Attrs1 : Attributes :=
  ⟨"m1", "a1", "s1", "b1", "cm", "1", "2", "+", "no", "1", "g", "bi", "sc", "e", "!", "d"⟩

def c6Attrs2 : Attributes :=
  ⟨"m1", "a1", "s2", "b1", "cm", "1", "2", "+", "no", "1", "g", "bi", "sc", "e", "!", "d"⟩

/-- An input consisting only of a comment line and blank lines. -/
def c7Input : List String := ["# comment only", "", "   "]

/-- A data line with distinct tokens in columns 0 and 2, to expose which
column the sequence name is read from. -/
def c8Line : String := "RNAmodel macc chrSeq sacc cm 1 2 3 4 + no 1 g bi sc e ! d"

def c8Attrs : Attributes :=
  ⟨"RNAmodel", "macc", "chrSeq", "sacc", "cm", "1", "2", "+", "no", "1", "g", "bi", "sc", "e", "!", "d"⟩

def c9Hdr : String := "#target name x"

/-- Six leading blank lines followed by a valid header line. -/
def c9Input : List String := ["", "", "", "", "", "", "#target name x"]

/-- A data line with only 10 tokens whose sequence-start field is not
numeric. -/
def c10Short : String := "m a s b cm 1 2 abc 4 +"

/-- A data line with 17 valid tokens (the description column is missing). -/
def c10Seventeen : String := "m a s b cm 1 2 3 4 + no 1 g bi sc e !"

/-! Basic lemmas about the building blocks of the embedding. -/

@[simp]
theorem exBind_ok (a : α) (f : α → Except PyErr β) : exBind (Except.ok a) f = f a := rfl

@[simp]
theorem exBind_err (e : PyErr) (f : α → Except PyErr β) :
    exBind (Except.error e) f = Except.error e := rfl

theorem exBind_eq_ok {x : Except PyErr α} {f : α → Except PyErr β} {b : β}
    (h : exBind x f = Except.ok b) : ∃ a, x = Except.ok a ∧ f a = Except.ok b := by
  cases x with
  | error e => rw [exBind_err] at h; exact Except.noConfusion h
  | ok a => exact ⟨a, rfl, h⟩

theorem getF_some {fields : List String} {i : Nat} {v : String}
    (h : fields.get? i = some v) : getF fields i = Except.ok v := by
  unfold getF; rw [h]

theorem getF_none {fields : List String} {i : Nat} (h : fields.length ≤ i) :
    getF fields i = Except.error PyErr.indexError := by
  unfold getF; rw [List.get?_eq_none.mpr h]

theorem getF_ok_lt {fields : List String} {i : Nat} {v : String}
    (h : getF fields i = Except.ok v) : i < fields.length := by
  unfold getF at h
  cases hg : fields.get? i with
  | none => rw [hg] at h; exact Except.noConfusion h
  | some w => exact (List.get?_eq_some.mp hg).1

@[simp] theorem colIndex_seqStart : colIndex seqStartKey = 7 := rfl

@[simp] theorem colIndex_seqEnd : colIndex seqEndKey = 8 := rfl

@[simp] theorem colIndex_strand : colIndex strandKey = 9 := rfl

@[simp] theorem colIndex_type : colIndex ("TYPE_OF_MODEL") = 4 := rfl

@[simp] theorem colIndex_mdlStart : colIndex ("MODEL_START_POSITION") = 5 := rfl

@[simp] theorem colIndex_mdlEnd : colIndex ("MODEL_END_POSITION") = 6 := rfl

@[simp] theorem colIndex_strandLit : colIndex ("STRAND") = 9 := rfl

@[simp] theorem colIndex_trunc : colIndex ("TRUNCATED") = 10 := rfl

@[simp] theorem colIndex_pass : colIndex ("PASS") = 11 := rfl

@[simp] theorem colIndex_gc : colIndex ("GC_CONTENT") = 12 := rfl

@[simp] theorem colIndex_bias : colIndex ("BIAS") = 13 := rfl

@[simp] theorem colIndex_bitscore : colIndex ("BITSCORE") = 14 := rfl

@[simp] theorem colIndex_evalue : colIndex ("EVALUE") = 15 := rfl

@[simp] theorem colIndex_inc : colIndex ("INC") = 16 := rfl

@[simp] theorem colIndex_desc : colIndex ("DESCRIPTION") = 17 := rfl

/-- The formatted message of the sequence-start error, for any offending
literal: four specifiers, four arguments. -/
theorem raiseFmt_start (v : String) :
    raiseFmt fmtCoord [PyVal.s colWord, PyVal.i 7, PyVal.s msgStartTail, PyVal.s v] =
      PyErr.cmscanFormatError (coordStartErrMsg v) := rfl

/-- The sequence-end error message has four specifiers but five arguments,
so Python raises `TypeError` while building it. -/
theorem raiseFmt_end (v : String) :
    raiseFmt fmtCoord
      [PyVal.s colWord, PyVal.i 8, PyVal.s msgEndTail, PyVal.s v, PyVal.s dotStr] =
      PyErr.typeError := rfl

/-- The formatted message of the forward-strand ordering error. -/
theorem raiseFmt_plus (s e : Nat) :
    raiseFmt fmtOrder
      [PyVal.s msgPlusA, PyVal.i s, PyVal.s andWord, PyVal.i e, PyVal.s msgPlusB] =
      PyErr.cmscanFormatError (plusOrderMsg s e) := rfl

/-! Lemmas about the per-line validation steps. -/

theorem readStart_ok {fields : List String} {a : String}
    (h7 : fields.get? 7 = some a) (h7d : pyIsDigit a = true) :
    readStart fields = Except.ok (strToNat a) := by
  unfold readStart
  rw [colIndex_seqStart, getF_some h7]
  simp only [exBind_ok]
  rw [if_pos h7d]

theorem readStart_err {fields : List String} {a : String}
    (h7 : fields.get? 7 = some a) (h7d : pyIsDigit a = false) :
    readStart fields = Except.error (PyErr.cmscanFormatError (coordStartErrMsg a)) := by
  unfold readStart
  rw [colIndex_seqStart, getF_some h7]
  simp only [exBind_ok]
  rw [if_neg (by rw [h7d]; exact Bool.false_ne_true), raiseFmt_start]

theorem readEnd_ok {fields : List String} {b : String}
    (h8 : fields.get? 8 = some b) (h8d : pyIsDigit b = true) :
    readEnd fields = Except.ok (strToNat b) := by
  unfold readEnd
  rw [colIndex_seqEnd, getF_some h8]
  simp only [exBind_ok]
  rw [if_pos h8d]

theorem readEnd_err {fields : List String} {b : String}
    (h8 : fields.get? 8 = some b) (h8d : pyIsDigit b = false) :
    readEnd fields = Except.error PyErr.typeError := by
  unfold readEnd
  rw [colIndex_seqEnd, getF_some h8]
  simp only [exBind_ok]
  rw [if_neg (by rw [h8d]; exact Bool.false_ne_true), raiseFmt_end]

theorem normStrand_plus_ok {fields : List String} {s e : Nat}
    (h9 : fields.get? 9 = some plusStr) (h : s ≤ e) :
    normStrand fields s e = Except.ok (s, e) := by
  unfold normStrand
  rw [colIndex_strand, getF_some h9]
  simp only [exBind_ok]
  rw [if_pos trivial, if_neg (Nat.not_lt.mpr h)]

theorem normStrand_plus_err {fields : List String} {s e : Nat}
    (h9 : fields.get? 9 = some plusStr) (h : e < s) :
    normStrand fields s e =
      Except.error (PyErr.cmscanFormatError (plusOrderMsg s e)) := by
  unfold normStrand
  rw [colIndex_strand, getF_some h9]
  simp only [exBind_ok]
  rw [if_pos trivial, if_pos h, raiseFmt_plus]

theorem normStrand_minus_ok {fields : List String} {s e : Nat}
    (h9 : fields.get? 9 = some minusStr) (h : e ≤ s) :
    normStrand fields s e = Except.ok (e, s) := by
  unfold normStrand
  rw [colIndex_strand, getF_some h9]
  simp only [exBind_ok]
  rw [if_pos trivial, if_neg (Nat.not_lt.mpr h), if_neg (show ¬minusStr = plusStr by decide)]

theorem variantNames_cmsearch {fields : List String} {v0 v1 v2 v3 : String}
    (h0 : fields.get? 0 = some v0) (h1 : fields.get? 1 = some v1)
    (h2 : fields.get? 2 = some v2) (h3 : fields.get? 3 = some v3) :
    variantNames progCMSEARCH fields = Except.ok (v0, v1, v2, v3) := by
  unfold variantNames
  rw [if_pos rfl, getF_some h0]
  simp only [exBind_ok]
  rw [getF_some h1]
  simp only [exBind_ok]
  rw [getF_some h2]
  simp only [exBind_ok]
  rw [getF_some h3]
  simp only [exBind_ok]

theorem variantNames_cmscan {fields : List String} {v0 v1 v2 v3 : String}
    (h0 : fields.get? 0 = some v0) (h1 : fields.get? 1 = some v1)
    (h2 : fields.get? 2 = some v2) (h3 : fields.get? 3 = some v3) :
    variantNames progCMSCAN fields = Except.ok (v2, v3, v0, v1) := by
  unfold variantNames
  rw [if_neg (by decide), if_pos rfl, getF_some h2]
  simp only [exBind_ok]
  rw [getF_some h3]
  simp only [exBind_ok]
  rw [getF_some h0]
  simp only [exBind_ok]
  rw [getF_some h1]
  simp only [exBind_ok]

theorem variantNames_other {p : String} (fields : List String)
    (hp1 : ¬p = progCMSEARCH) (hp2 : ¬p = progCMSCAN) :
    variantNames p fields = Except.error (PyErr.cmscanFormatError msgProgErr) := by
  unfold variantNames
  rw [if_neg hp1, if_neg hp2]

theorem mkAttributes_ok {p : String} {fields : List String} {sn sa mn ma s9 : String}
    (hv : variantNames p fields = Except.ok (sn, sa, mn, ma))
    (hlen : 18 ≤ fields.length) (h9 : fields.get? 9 = some s9) :
    ∃ attrs, mkAttributes p fields = Except.ok attrs ∧
      attrs.SEQUENCE_NAME = sn ∧ attrs.SEQUENCE_ACCESSION = sa ∧
      attrs.MODEL_NAME = mn ∧ attrs.MODEL_ACCESSION = ma ∧ attrs.STRAND = s9 := by
  obtain ⟨f4, h4⟩ : ∃ v, fields.get? 4 = some v := ⟨_, List.get?_eq_get (by omega)⟩
  obtain ⟨f5, h5⟩ : ∃ v, fields.get? 5 = some v := ⟨_, List.get?_eq_get (by omega)⟩
  obtain ⟨f6, h6⟩ : ∃ v, fields.get? 6 = some v := ⟨_, List.get?_eq_get (by omega)⟩
  obtain ⟨f10, h10⟩ : ∃ v, fields.get? 10 = some v := ⟨_, List.get?_eq_get (by omega)⟩
  obtain ⟨f11, h11⟩ : ∃ v, fields.get? 11 = some v := ⟨_, List.get?_eq_get (by omega)⟩
  obtain ⟨f12, h12⟩ : ∃ v, fields.get? 12 = some v := ⟨_, List.get?_eq_get (by omega)⟩
  obtain ⟨f13, h13⟩ : ∃ v, fields.get? 13 = some v := ⟨_, List.get?_eq_get (by omega)⟩
  obtain ⟨f14, h14⟩ : ∃ v, fields.get? 14 = some v := ⟨_, List.get?_eq_get (by omega)⟩
  obtain ⟨f15, h15⟩ : ∃ v, fields.get? 15 = some v := ⟨_, List.get?_eq_get (by omega)⟩
  obtain ⟨f16, h16⟩ : ∃ v, fields.get? 16 = some v := ⟨_, List.get?_eq_get (by omega)⟩
  obtain ⟨f17, h17⟩ : ∃ v, fields.get? 17 = some v := ⟨_, List.get?_eq_get (by omega)⟩
  refine ⟨⟨mn, ma, sn, sa, f4, f5, f6, s9, f10, f11, f12, f13, f14, f15, f16, f17⟩,
    ?_, rfl, rfl, rfl, rfl, rfl⟩
  unfold mkAttributes
  rw [hv]
  simp only [exBind_ok, colIndex_type, colIndex_mdlStart, colIndex_mdlEnd, colIndex_strandLit,
    colIndex_trunc, colIndex_pass, colIndex_gc, colIndex_bias, colIndex_bitscore,
    colIndex_evalue, colIndex_inc, colIndex_desc,
    getF_some h4, getF_some h5, getF_some h6, getF_some h9, getF_some h10, getF_some h11,
    getF_some h12, getF_some h13, getF_some h14, getF_some h15, getF_some h16, getF_some h17]

/-! Lemmas about the grouping loop. -/

theorem parseFields_ok_len {p : String} {fs : List String} {r : Attributes × Nat × Nat}
    (h : parseFields p fs = Except.ok r) : 18 ≤ fs.length := by
  unfold parseFields at h
  obtain ⟨s1, hs1, h⟩ := exBind_eq_ok h
  obtain ⟨e1, he1, h⟩ := exBind_eq_ok h
  obtain ⟨se, hse, h⟩ := exBind_eq_ok h
  obtain ⟨attrs, hmk, h⟩ := exBind_eq_ok h
  unfold mkAttributes at hmk
  obtain ⟨names, hn, hmk⟩ := exBind_eq_ok hmk
  obtain ⟨f4, h4, hmk⟩ := exBind_eq_ok hmk
  obtain ⟨f5, h5, hmk⟩ := exBind_eq_ok hmk
  obtain ⟨f6, h6, hmk⟩ := exBind_eq_ok hmk
  obtain ⟨f9, h9, hmk⟩ := exBind_eq_ok hmk
  obtain ⟨f10, h10, hmk⟩ := exBind_eq_ok hmk
  obtain ⟨f11, h11, hmk⟩ := exBind_eq_ok hmk
  obtain ⟨f12, h12, hmk⟩ := exBind_eq_ok hmk
  obtain ⟨f13, h13, hmk⟩ := exBind_eq_ok hmk
  obtain ⟨f14, h14, hmk⟩ := exBind_eq_ok hmk
  obtain ⟨f15, h15, hmk⟩ := exBind_eq_ok hmk
  obtain ⟨f16, h16, hmk⟩ := exBind_eq_ok hmk
  obtain ⟨f17, h17, hmk⟩ := exBind_eq_ok hmk
  have hlt := getF_ok_lt h17
  rw [colIndex_desc] at hlt
  omega

theorem parseAux_groupLoop (p : String) (input : List String) :
    ∀ (cur : Option String) (ann : HitGroup) (hits : List Hit),
      parseAll p (dataLines input) = Except.ok hits →
      parseRecordsAux p cur ann input = (groupLoop cur ann hits, none) := by
  induction input with
  | nil =>
    intro cur ann hits h
    simp only [dataLines, parseAll, Except.ok.injEq] at h
    subst h
    rfl
  | cons l ls ih =>
    intro cur ann hits h
    by_cases hb : isBlank l = true
    · rw [show dataLines (l :: ls) = dataLines ls by simp [dataLines, hb]] at h
      rw [show parseRecordsAux p cur ann (l :: ls) = parseRecordsAux p cur ann ls by
        simp [parseRecordsAux, hb]]
      exact ih cur ann hits h
    · by_cases hc : startsHash (pyStrip l) = true
      · rw [show dataLines (l :: ls) = dataLines ls by simp [dataLines, hb, hc]] at h
        rw [show parseRecordsAux p cur ann (l :: ls) = parseRecordsAux p cur ann ls by
          simp [parseRecordsAux, hb, hc]]
        exact ih cur ann hits h
      · rw [show dataLines (l :: ls) = pyStrip l :: dataLines ls by
          simp [dataLines, hb, hc]] at h
        simp only [parseAll] at h
        obtain ⟨hit, hline, h⟩ := exBind_eq_ok h
        obtain ⟨hs, hall, h⟩ := exBind_eq_ok h
        simp only [Except.ok.injEq] at h
        subst h
        obtain ⟨attrs, st, en⟩ := hit
        by_cases hyc : yieldCond cur attrs.SEQUENCE_NAME = true
        · rw [show parseRecordsAux p cur ann (l :: ls) =
              (ann :: (parseRecordsAux p (some attrs.SEQUENCE_NAME)
                (dictInsert [] attrs [(st, en)]) ls).1,
               (parseRecordsAux p (some attrs.SEQUENCE_NAME)
                (dictInsert [] attrs [(st, en)]) ls).2) by
            simp [parseRecordsAux, hb, hc, hline, hyc]]
          rw [ih (some attrs.SEQUENCE_NAME) (dictInsert [] attrs [(st, en)]) hs hall]
          simp [groupLoop, hyc]
        · rw [show parseRecordsAux p cur ann (l :: ls) =
              parseRecordsAux p (some attrs.SEQUENCE_NAME)
                (dictInsert ann attrs [(st, en)]) ls by
            simp [parseRecordsAux, hb, hc, hline, hyc]]
          rw [ih (some attrs.SEQUENCE_NAME) (dictInsert ann attrs [(st, en)]) hs hall]
          simp [groupLoop, hyc]

theorem groupLoop_runsAux (rest : List Hit) :
    ∀ (name : String) (cur : List Hit),
      groupLoop (some name) (buildGroup cur.reverse) rest =
        (runsAux name cur rest).map buildGroup := by
  induction rest with
  | nil => intro name cur; rfl
  | cons h rest ih =>
    intro name cur
    by_cases heq : h.1.SEQUENCE_NAME = name
    · have hyc : yieldCond (some name) h.1.SEQUENCE_NAME = false := by
        simp [yieldCond, heq]
      rw [show groupLoop (some name) (buildGroup cur.reverse) (h :: rest) =
            groupLoop (some h.1.SEQUENCE_NAME)
              (dictInsert (buildGroup cur.reverse) h.1 [h.2]) rest by
          simp [groupLoop, hyc]]
      rw [show dictInsert (buildGroup cur.reverse) h.1 [h.2] =
            buildGroup ((h :: cur).reverse) by
          simp [buildGroup, List.reverse_cons, List.foldl_append]]
      rw [heq, ih name (h :: cur)]
      simp [runsAux, heq]
    · have hyc : yieldCond (some name) h.1.SEQUENCE_NAME = true := by
        simp only [yieldCond, bne_iff_ne, ne_eq]
        exact fun hh => heq hh.symm
      rw [show groupLoop (some name) (buildGroup cur.reverse) (h :: rest) =
            buildGroup cur.reverse ::
              groupLoop (some h.1.SEQUENCE_NAME) (dictInsert [] h.1 [h.2]) rest by
          simp [groupLoop, hyc]]
      rw [show dictInsert [] h.1 [h.2] = buildGroup ([h].reverse) from rfl,
        ih h.1.SEQUENCE_NAME [h]]
      simp [runsAux, heq]

theorem groupLoop_runs (hits : List Hit) :
    groupLoop none [] hits =
      (match hits with
       | [] => [[]]
       | _ :: _ => (runs hits).map buildGroup) := by
  cases hits with
  | nil => rfl
  | cons h rest =>
    rw [show groupLoop none [] (h :: rest) =
          groupLoop (some h.1.SEQUENCE_NAME) (dictInsert [] h.1 [h.2]) rest by
        simp [groupLoop, yieldCond]]
    rw [show dictInsert [] h.1 [h.2] = buildGroup ([h].reverse) from rfl,
      groupLoop_runsAux rest h.1.SEQUENCE_NAME [h]]
    rfl

theorem parseAux_snd_none_ne_nil (p : String) (input : List String) :
    ∀ (cur : Option String) (ann : HitGroup),
      (parseRecordsAux p cur ann input).2 = none →
      (parseRecordsAux p cur ann input).1 ≠ [] := by
  induction input with
  | nil => intro cur ann _; simp [parseRecordsAux]
  | cons l ls ih =>
    intro cur ann h2
    by_cases hb : isBlank l = true
    · rw [show parseRecordsAux p cur ann (l :: ls) = parseRecordsAux p cur ann ls by
        simp [parseRecordsAux, hb]] at h2 ⊢
      exact ih cur ann h2
    · by_cases hc : startsHash (pyStrip l) = true
      · rw [show parseRecordsAux p cur ann (l :: ls) = parseRecordsAux p cur ann ls by
          simp [parseRecordsAux, hb, hc]] at h2 ⊢
        exact ih cur ann h2
      · cases hpl : parseLine p (pyStrip l) with
        | error e =>
          rw [show parseRecordsAux p cur ann (l :: ls) = ([], some e) by
            simp [parseRecordsAux, hb, hc, hpl]] at h2
          exact absurd h2 (by simp)
        | ok t =>
          obtain ⟨attrs, st, en⟩ := t
          by_cases hyc : yieldCond cur attrs.SEQUENCE_NAME = true
          · rw [show parseRecordsAux p cur ann (l :: ls) =
                (ann :: (parseRecordsAux p (some attrs.SEQUENCE_NAME)
                  (dictInsert [] attrs [(st, en)]) ls).1,
                 (parseRecordsAux p (some attrs.SEQUENCE_NAME)
                  (dictInsert [] attrs [(st, en)]) ls).2) by
              simp [parseRecordsAux, hb, hc, hpl, hyc]]
            simp
          · rw [show parseRecordsAux p cur ann (l :: ls) =
                parseRecordsAux p (some attrs.SEQUENCE_NAME)
                  (dictInsert ann attrs [(st, en)]) ls by
              simp [parseRecordsAux, hb, hc, hpl, hyc]] at h2 ⊢
            exact ih (some attrs.SEQUENCE_NAME) (dictInsert ann attrs [(st, en)]) h2

theorem parseAux_no_data (p : String) (input : List String) :
    ∀ (cur : Option String) (ann : HitGroup),
      dataLines input = [] → parseRecordsAux p cur ann input = ([ann], none) := by
  induction input with
  | nil => intro cur ann _; rfl
  | cons l ls ih =>
    intro cur ann h
    by_cases hb : isBlank l = true
    · rw [show dataLines (l :: ls) = dataLines ls by simp [dataLines, hb]] at h
      rw [show parseRecordsAux p cur ann (l :: ls) = parseRecordsAux p cur ann ls by
        simp [parseRecordsAux, hb]]
      exact ih cur ann h
    · by_cases hc : startsHash (pyStrip l) = true
      · rw [show dataLines (l :: ls) = dataLines ls by simp [dataLines, hb, hc]] at h
        rw [show parseRecordsAux p cur ann (l :: ls) = parseRecordsAux p cur ann ls by
          simp [parseRecordsAux, hb, hc]]
        exact ih cur ann h
      · rw [show dataLines (l :: ls) = pyStrip l :: dataLines ls by
          simp [dataLines, hb, hc]] at h
        exact absurd h (by simp)

/-! The claim theorems. -/

/-- Claim C1 (code bug): on the two consecutive docstring hit lines, which
share every attribute and differ only in their coordinates, the emitted
single group holds only ONE entry — the interval of the second line — because
the attribute set (which excludes the coordinates) is the dict key, so the
second assignment overwrites the first.  The input has 2 data lines but the
total entry count across all emitted groups is 1, refuting the claimed
count equality. -/
theorem overwrite_drops_hits :
    (dataLines [c1LineA, c1LineB]).length = 2 ∧
    _parse_records [c1LineA, c1LineB] = ([[(c1Attrs, [(5018849, 5021753)])]], none) ∧
    ((_parse_records [c1LineA, c1LineB]).1.map List.length).sum = 1 :=
  ⟨rfl, rfl, rfl⟩

/-- Claim C2 (code bug): on a data line whose description is
`description of target`, the parsed DESCRIPTION attribute is only the single
token `description` (the source reads `fields[17]`), dropping the trailing
tokens `of` and `target`. -/
theorem description_truncated :
    (pySplit c2Line).drop 17 = [("description"), ("of"), ("target")] ∧
    parseLine progCMSCAN c2Line = Except.ok (c2Attrs, 3, 4) ∧
    c2Attrs.DESCRIPTION = ("description") :=
  ⟨rfl, rfl, rfl⟩

/-- Claim C3: for every well-formed data line with strand `-` and
sequence-start ≥ sequence-end, the emitted interval is the input bounds
swapped — `(sequence-end, sequence-start)` — so it is stored in ascending
order while the STRAND attribute still records `-`. -/
theorem minus_strand_interval (line : String) (a b : String)
    (hlen : 18 ≤ (pySplit line).length)
    (h7 : (pySplit line).get? 7 = some a) (h7d : pyIsDigit a = true)
    (h8 : (pySplit line).get? 8 = some b) (h8d : pyIsDigit b = true)
    (h9 : (pySplit line).get? 9 = some minusStr)
    (hord : strToNat b ≤ strToNat a) :
    ∃ attrs, parseLine progCMSCAN line = Except.ok (attrs, strToNat b, strToNat a) ∧
      attrs.STRAND = minusStr ∧ strToNat b ≤ strToNat a := by
  obtain ⟨v0, h0⟩ : ∃ v, (pySplit line).get? 0 = some v := ⟨_, List.get?_eq_get (by omega)⟩
  obtain ⟨v1, h1⟩ : ∃ v, (pySplit line).get? 1 = some v := ⟨_, List.get?_eq_get (by omega)⟩
  obtain ⟨v2, h2⟩ : ∃ v, (pySplit line).get? 2 = some v := ⟨_, List.get?_eq_get (by omega)⟩
  obtain ⟨v3, h3⟩ : ∃ v, (pySplit line).get? 3 = some v := ⟨_, List.get?_eq_get (by omega)⟩
  have hv := variantNames_cmscan h0 h1 h2 h3
  obtain ⟨attrs, hmk, hsn, hsa, hmn, hma, hstr⟩ := mkAttributes_ok hv hlen h9
  refine ⟨attrs, ?_, hstr, hord⟩
  unfold parseLine parseFields
  rw [readStart_ok h7 h7d]
  simp only [exBind_ok]
  rw [readEnd_ok h8 h8d]
  simp only [exBind_ok]
  rw [normStrand_minus_ok h9 hord]
  simp only [exBind_ok]
  rw [hmk]
  simp only [exBind_ok]

/-- Claim C3 witness: the line with strand `-`, start `500`, end `300`
yields the interval `(300, 500)`. -/
theorem minus_strand_interval_witness :
    ∃ attrs, parseLine progCMSCAN c3Line = Except.ok (attrs, 300, 500) ∧
      attrs.STRAND = minusStr ∧ (300 : Nat) ≤ 500 :=
  minus_strand_interval c3Line ("500") ("300") (by decide) rfl rfl rfl rfl rfl (by decide)

/-- Claim C4: for every well-formed data line with strand `+`, a
`CmscanFormatError` is raised iff sequence-start > sequence-end; otherwise
the emitted interval is exactly the input bounds in order; and in the error
case the message is the one naming both bounds and saying the hit may
actually be on the reverse strand. -/
theorem plus_strand_check (line : String) (a b : String)
    (hlen : 18 ≤ (pySplit line).length)
    (h7 : (pySplit line).get? 7 = some a) (h7d : pyIsDigit a = true)
    (h8 : (pySplit line).get? 8 = some b) (h8d : pyIsDigit b = true)
    (h9 : (pySplit line).get? 9 = some plusStr) :
    ((∃ m, parseLine progCMSCAN line = Except.error (PyErr.cmscanFormatError m)) ↔
      strToNat b < strToNat a) ∧
    (strToNat a ≤ strToNat b →
      ∃ attrs, parseLine progCMSCAN line = Except.ok (attrs, strToNat a, strToNat b) ∧
        attrs.STRAND = plusStr) ∧
    (strToNat b < strToNat a →
      parseLine progCMSCAN line =
        Except.error (PyErr.cmscanFormatError (plusOrderMsg (strToNat a) (strToNat b)))) := by
  obtain ⟨v0, h0⟩ : ∃ v, (pySplit line).get? 0 = some v := ⟨_, List.get?_eq_get (by omega)⟩
  obtain ⟨v1, h1⟩ : ∃ v, (pySplit line).get? 1 = some v := ⟨_, List.get?_eq_get (by omega)⟩
  obtain ⟨v2, h2⟩ : ∃ v, (pySplit line).get? 2 = some v := ⟨_, List.get?_eq_get (by omega)⟩
  obtain ⟨v3, h3⟩ : ∃ v, (pySplit line).get? 3 = some v := ⟨_, List.get?_eq_get (by omega)⟩
  have hv := variantNames_cmscan h0 h1 h2 h3
  have hsucc : strToNat a ≤ strToNat b →
      ∃ attrs, parseLine progCMSCAN line = Except.ok (attrs, strToNat a, strToNat b) ∧
        attrs.STRAND = plusStr := by
    intro hle
    obtain ⟨attrs, hmk, hsn, hsa, hmn, hma, hstr⟩ := mkAttributes_ok hv hlen h9
    refine ⟨attrs, ?_, hstr⟩
    unfold parseLine parseFields
    rw [readStart_ok h7 h7d]
    simp only [exBind_ok]
    rw [readEnd_ok h8 h8d]
    simp only [exBind_ok]
    rw [normStrand_plus_ok h9 hle]
    simp only [exBind_ok]
    rw [hmk]
    simp only [exBind_ok]
  have herr : strToNat b < strToNat a →
      parseLine progCMSCAN line =
        Except.error (PyErr.cmscanFormatError (plusOrderMsg (strToNat a) (strToNat b))) := by
    intro hlt
    unfold parseLine parseFields
    rw [readStart_ok h7 h7d]
    simp only [exBind_ok]
    rw [readEnd_ok h8 h8d]
    simp only [exBind_ok]
    rw [normStrand_plus_err h9 hlt]
    simp only [exBind_err]
  refine ⟨⟨?_, fun hlt => ⟨_, herr hlt⟩⟩, hsucc, herr⟩
  rintro ⟨m, hm⟩
  rcases Nat.lt_or_ge (strToNat b) (strToNat a) with hlt | hge
  · exact hlt
  · obtain ⟨attrs, hok, _⟩ := hsucc hge
    rw [hok] at hm
    exact Except.noConfusion hm

/-- Claim C4 witness: the line with strand `+`, start `500`, end `300`
raises the format error whose message names 500 and 300 and points at the
reverse strand. -/
theorem plus_strand_check_witness :
    parseLine progCMSCAN c4Line =
      Except.error (PyErr.cmscanFormatError (plusOrderMsg 500 300)) :=
  (plus_strand_check c4Line ("500") ("300") (by decide) rfl rfl rfl rfl rfl).2.2 (by decide)

/-- Claim C5 (code bug): a non-numeric sequence-start field raises the
format error naming column 7 and the literal, but a non-numeric
sequence-end field raises `TypeError` instead of the format error, because
the source passes five arguments to a four-specifier format string. -/
theorem coord_error_paths :
    parseLine progCMSCAN c5BadStart =
      Except.error (PyErr.cmscanFormatError (coordStartErrMsg ("abc"))) ∧
    parseLine progCMSCAN c5BadEnd = Except.error PyErr.typeError ∧
    pyIsDigit ("abc") = false :=
  ⟨rfl, rfl, rfl⟩

/-- Claim C6: when every data line parses, the emitted groups are exactly
the maximal runs of consecutive data lines sharing a sequence name, each
group being the dict built from its run, in file order (with the single
empty group when there are no data lines).  A reappearing identifier starts
a fresh run, hence a fresh group. -/
theorem grouping_runs (input : List String) (hits : List Hit)
    (h : parseAll progCMSCAN (dataLines input) = Except.ok hits) :
    _parse_records input =
      ((match hits with
        | [] => [[]]
        | _ :: _ => (runs hits).map buildGroup), none) := by
  unfold _parse_records
  rw [parseAux_groupLoop progCMSCAN input none [] hits h, groupLoop_runs hits]
  cases hits <;> rfl

/-- Claim C6 witness: a header comment, a hit on sequence `s1`, a blank
line, then a hit on sequence `s2` yield two singleton groups in order. -/
theorem grouping_runs_witness :
    _parse_records c6Input = ([[(c6Attrs1, [(3, 4)])], [(c6Attrs2, [(5, 6)])]], none) := by
  exact grouping_runs c6Input [(c6Attrs1, 3, 4), (c6Attrs2, 5, 6)] rfl

/-- Claim C7: on any input where no error is raised the parser emits at
least its final accumulator (the group list is nonempty), and an input with
no data lines at all yields exactly one group, the empty one. -/
theorem final_emission (input : List String) :
    ((_parse_records input).2 = none → (_parse_records input).1 ≠ []) ∧
    (dataLines input = [] → _parse_records input = ([[]], none)) :=
  ⟨parseAux_snd_none_ne_nil progCMSCAN input none [],
   parseAux_no_data progCMSCAN input none []⟩

/-- Claim C7 witness: an input of one comment line and two blank lines
yields exactly one empty group. -/
theorem final_emission_witness : _parse_records c7Input = ([[]], none) :=
  (final_emission c7Input).2 (by decide)

/-- Claim C8 counterexample: the program variant is not supplied by the
caller — `_parse_records` fixes the internal constant to `CMSCAN` — so a
line is always mapped with the CMSCAN layout: the sequence name comes from
column 2 and the model name from column 0, with no way to select the
CMSEARCH layout. -/
theorem program_fixed_cmscan :
    _parse_records [c8Line] = ([[(c8Attrs, [(3, 4)])]], none) ∧
    c8Attrs.SEQUENCE_NAME = ("chrSeq") ∧ c8Attrs.MODEL_NAME = ("RNAmodel") :=
  ⟨rfl, rfl, rfl⟩

/-- Claim C8 (amended): the record-parsing code does contain both column
layouts, selected by the internal program string: under `CMSCAN` the
sequence name/accession are read from columns 2-3 and the model
name/accession from columns 0-1, under `CMSEARCH` the roles are swapped,
both normalized to the same attribute names; any other program value raises
the fatal format error.  But the value is a local constant fixed to
`CMSCAN`, not caller-supplied. -/
theorem variant_mapping (line : String) (v0 v1 v2 v3 a b : String)
    (h0 : (pySplit line).get? 0 = some v0) (h1 : (pySplit line).get? 1 = some v1)
    (h2 : (pySplit line).get? 2 = some v2) (h3 : (pySplit line).get? 3 = some v3)
    (hlen : 18 ≤ (pySplit line).length)
    (h7 : (pySplit line).get? 7 = some a) (h7d : pyIsDigit a = true)
    (h8 : (pySplit line).get? 8 = some b) (h8d : pyIsDigit b = true)
    (h9 : (pySplit line).get? 9 = some plusStr) (hord : strToNat a ≤ strToNat b) :
    (∃ attrs, parseLine progCMSCAN line = Except.ok (attrs, strToNat a, strToNat b) ∧
      attrs.SEQUENCE_NAME = v2 ∧ attrs.SEQUENCE_ACCESSION = v3 ∧
      attrs.MODEL_NAME = v0 ∧ attrs.MODEL_ACCESSION = v1) ∧
    (∃ attrs, parseLine progCMSEARCH line = Except.ok (attrs, strToNat a, strToNat b) ∧
      attrs.SEQUENCE_NAME = v0 ∧ attrs.SEQUENCE_ACCESSION = v1 ∧
      attrs.MODEL_NAME = v2 ∧ attrs.MODEL_ACCESSION = v3) ∧
    (∀ p, ¬p = progCMSEARCH → ¬p = progCMSCAN →
      parseLine p line = Except.error (PyErr.cmscanFormatError msgProgErr)) := by
  refine ⟨?_, ?_, ?_⟩
  · obtain ⟨attrs, hmk, hsn, hsa, hmn, hma, _⟩ :=
      mkAttributes_ok (variantNames_cmscan h0 h1 h2 h3) hlen h9
    refine ⟨attrs, ?_, hsn, hsa, hmn, hma⟩
    unfold parseLine parseFields
    rw [readStart_ok h7 h7d]
    simp only [exBind_ok]
    rw [readEnd_ok h8 h8d]
    simp only [exBind_ok]
    rw [normStrand_plus_ok h9 hord]
    simp only [exBind_ok]
    rw [hmk]
    simp only [exBind_ok]
  · obtain ⟨attrs, hmk, hsn, hsa, hmn, hma, _⟩ :=
      mkAttributes_ok (variantNames_cmsearch h0 h1 h2 h3) hlen h9
    refine ⟨attrs, ?_, hsn, hsa, hmn, hma⟩
    unfold parseLine parseFields
    rw [readStart_ok h7 h7d]
    simp only [exBind_ok]
    rw [readEnd_ok h8 h8d]
    simp only [exBind_ok]
    rw [normStrand_plus_ok h9 hord]
    simp only [exBind_ok]
    rw [hmk]
    simp only [exBind_ok]
  · intro p hp1 hp2
    unfold parseLine parseFields
    rw [readStart_ok h7 h7d]
    simp only [exBind_ok]
    rw [readEnd_ok h8 h8d]
    simp only [exBind_ok]
    rw [normStrand_plus_ok h9 hord]
    simp only [exBind_ok]
    unfold mkAttributes
    rw [variantNames_other (pySplit line) hp1 hp2]
    simp only [exBind_err]

/-- Claim C8 witness: on a concrete line, CMSEARCH mapping reads the
sequence name from column 0. -/
theorem variant_mapping_witness :
    ∃ attrs, parseLine progCMSEARCH c8Line = Except.ok (attrs, 3, 4) ∧
      attrs.SEQUENCE_NAME = ("RNAmodel") ∧ attrs.SEQUENCE_ACCESSION = ("macc") ∧
      attrs.MODEL_NAME = ("chrSeq") ∧ attrs.MODEL_ACCESSION = ("sacc") :=
  (variant_mapping c8Line ("RNAmodel") ("macc") ("chrSeq") ("sacc") ("3") ("4")
    rfl rfl rfl rfl (by decide) rfl rfl rfl rfl rfl (by decide)).2.1

/-- Claim C9 counterexample: an input of six blank lines followed by a line
starting with `#target name` is rejected by the sniffer even though its
first non-blank line starts with the literal, so the claimed unconditional
iff is false. -/
theorem sniffer_blank_override :
    firstNonBlank c9Input = some c9Hdr ∧ beginsWith c9Hdr hdrLit = true ∧
    (_cmscan_sniffer c9Input).1 = false :=
  ⟨rfl, rfl, rfl⟩

/-- Claim C9 (amended): the sniffer returns the true verdict (always with
an empty options record) iff the leading run of blank lines is at most 5
AND the first non-blank line starts with the literal `#target name`; in
particular it returns false on empty input and on any input with more than
5 leading blank lines. -/
theorem sniffer_verdict (input : List String) :
    ((_cmscan_sniffer input).1 = true ↔
      (leadingBlanks input ≤ 5 ∧
        ∃ l, firstNonBlank input = some l ∧ beginsWith l hdrLit = true)) ∧
    (_cmscan_sniffer input).2 = [] := by
  unfold _cmscan_sniffer _too_many_blanks
  by_cases hb : 5 < leadingBlanks input
  · rw [if_pos (by simpa using hb)]
    refine ⟨⟨fun h => absurd h (by simp), fun h => absurd hb (by omega)⟩, rfl⟩
  · rw [if_neg (by simpa using hb)]
    cases hf : firstNonBlank input with
    | none => simp [hf]
    | some l =>
      dsimp only
      by_cases hbeg : beginsWith l hdrLit = true
      · rw [if_pos hbeg]
        refine ⟨⟨fun _ => ⟨by omega, l, rfl, hbeg⟩, fun _ => rfl⟩, rfl⟩
      · rw [if_neg hbeg]
        refine ⟨⟨fun h => absurd h (by simp), ?_⟩, rfl⟩
        rintro ⟨_, l2, hl2, hbeg2⟩
        rw [show l2 = l by injection hl2 with h12; exact h12.symm] at hbeg2
        exact absurd hbeg2 hbeg

/-- Claim C10 counterexample: a line with only 10 tokens whose
sequence-start token is `abc` raises the distinguished format error (from
the coordinate validation), not an out-of-range access, refuting the
universal claim. -/
theorem short_line_format_error :
    (pySplit c10Short).length = 10 ∧
    parseLine progCMSCAN c10Short =
      Except.error (PyErr.cmscanFormatError (coordStartErrMsg ("abc"))) :=
  ⟨rfl, rfl⟩

/-- Claim C10 (amended): a data line with fewer than 18 tokens never parses
successfully; it fails with the out-of-range `IndexError` when the
validated fields are themselves missing (fewer than 8 tokens) or present
and valid (digits at positions 7 and 8, strand `+` in consistent order).
When a present validated field fails its check, the error of that
validation step is raised instead of the out-of-range access: the
distinguished format error naming the column and literal for a non-numeric
sequence-start, and — because of the malformed message format call — a
`TypeError` for a non-numeric sequence-end. -/
theorem short_line_fails (line : String) (hlen : (pySplit line).length < 18) :
    (∀ r, ¬parseLine progCMSCAN line = Except.ok r) ∧
    ((pySplit line).length ≤ 7 →
      parseLine progCMSCAN line = Except.error PyErr.indexError) ∧
    (∀ a b, (pySplit line).get? 7 = some a → pyIsDigit a = true →
      (pySplit line).get? 8 = some b → pyIsDigit b = true →
      (pySplit line).get? 9 = some plusStr → strToNat a ≤ strToNat b →
      parseLine progCMSCAN line = Except.error PyErr.indexError) ∧
    (∀ a, (pySplit line).get? 7 = some a → pyIsDigit a = false →
      parseLine progCMSCAN line =
        Except.error (PyErr.cmscanFormatError (coordStartErrMsg a))) ∧
    (∀ a b, (pySplit line).get? 7 = some a → pyIsDigit a = true →
      (pySplit line).get? 8 = some b → pyIsDigit b = false →
      parseLine progCMSCAN line = Except.error PyErr.typeError) := by
  refine ⟨?_, ?_, ?_, ?_, ?_⟩
  · intro r hok
    have := parseFields_ok_len hok
    omega
  · intro h7le
    unfold parseLine parseFields readStart
    rw [colIndex_seqStart, getF_none h7le]
    simp only [exBind_err]
  · intro a b h7 h7d h8 h8d h9 hord
    have h9lt : 9 < (pySplit line).length := (List.get?_eq_some.mp h9).1
    obtain ⟨v0, h0⟩ : ∃ v, (pySplit line).get? 0 = some v := ⟨_, List.get?_eq_get (by omega)⟩
    obtain ⟨v1, h1⟩ : ∃ v, (pySplit line).get? 1 = some v := ⟨_, List.get?_eq_get (by omega)⟩
    obtain ⟨v2, h2⟩ : ∃ v, (pySplit line).get? 2 = some v := ⟨_, List.get?_eq_get (by omega)⟩
    obtain ⟨v3, h3⟩ : ∃ v, (pySplit line).get? 3 = some v := ⟨_, List.get?_eq_get (by omega)⟩
    obtain ⟨f4, h4⟩ : ∃ v, (pySplit line).get? 4 = some v := ⟨_, List.get?_eq_get (by omega)⟩
    obtain ⟨f5, h5⟩ : ∃ v, (pySplit line).get? 5 = some v := ⟨_, List.get?_eq_get (by omega)⟩
    obtain ⟨f6, h6⟩ : ∃ v, (pySplit line).get? 6 = some v := ⟨_, List.get?_eq_get (by omega)⟩
    unfold parseLine parseFields
    rw [readStart_ok h7 h7d]
    simp only [exBind_ok]
    rw [readEnd_ok h8 h8d]
    simp only [exBind_ok]
    rw [normStrand_plus_ok h9 hord]
    simp only [exBind_ok]
    unfold mkAttributes
    rw [variantNames_cmscan h0 h1 h2 h3]
    simp only [exBind_ok, colIndex_type, colIndex_mdlStart, colIndex_mdlEnd,
      colIndex_strandLit, colIndex_trunc, colIndex_pass, colIndex_gc, colIndex_bias,
      colIndex_bitscore, colIndex_evalue, colIndex_inc, colIndex_desc,
      getF_some h4, getF_some h5, getF_some h6, getF_some h9]
    cases h10 : (pySplit line).get? 10 with
    | none =>
      rw [getF_none (List.get?_eq_none.mp h10)]
      simp only [exBind_err]
    | some f10 =>
      have l10 := (List.get?_eq_some.mp h10).1
      rw [getF_some h10]
      simp only [exBind_ok]
      cases h11 : (pySplit line).get? 11 with
      | none =>
        rw [getF_none (List.get?_eq_none.mp h11)]
        simp only [exBind_err]
      | some f11 =>
        have l11 := (List.get?_eq_some.mp h11).1
        rw [getF_some h11]
        simp only [exBind_ok]
        cases h12 : (pySplit line).get? 12 with
        | none =>
          rw [getF_none (List.get?_eq_none.mp h12)]
          simp only [exBind_err]
        | some f12 =>
          have l12 := (List.get?_eq_some.mp h12).1
          rw [getF_some h12]
          simp only [exBind_ok]
          cases h13 : (pySplit line).get? 13 with
          | none =>
            rw [getF_none (List.get?_eq_none.mp h13)]
            simp only [exBind_err]
          | some f13 =>
            have l13 := (List.get?_eq_some.mp h13).1
            rw [getF_some h13]
            simp only [exBind_ok]
            cases h14 : (pySplit line).get? 14 with
            | none =>
              rw [getF_none (List.get?_eq_none.mp h14)]
              simp only [exBind_err]
            | some f14 =>
              have l14 := (List.get?_eq_some.mp h14).1
              rw [getF_some h14]
              simp only [exBind_ok]
              cases h15 : (pySplit line).get? 15 with
              | none =>
                rw [getF_none (List.get?_eq_none.mp h15)]
                simp only [exBind_err]
              | some f15 =>
                have l15 := (List.get?_eq_some.mp h15).1
                rw [getF_some h15]
                simp only [exBind_ok]
                cases h16 : (pySplit line).get? 16 with
                | none =>
                  rw [getF_none (List.get?_eq_none.mp h16)]
                  simp only [exBind_err]
                | some f16 =>
                  have l16 := (List.get?_eq_some.mp h16).1
                  rw [getF_some h16]
                  simp only [exBind_ok]
                  rw [getF_none (show (pySplit line).length ≤ 17 by omega)]
                  simp only [exBind_err]
  · intro a h7 h7d
    unfold parseLine parseFields
    rw [readStart_err h7 h7d]
    simp only [exBind_err]
  · intro a b h7 h7d h8 h8d
    unfold parseLine parseFields
    rw [readStart_ok h7 h7d]
    simp only [exBind_ok]
    rw [readEnd_err h8 h8d]
    simp only [exBind_err]

/-- Claim C10 witness: a line of 17 valid tokens (description missing)
fails with the out-of-range access, not the format error. -/
theorem short_line_fails_witness :
    (pySplit c10Seventeen).length < 18 ∧
    parseLine progCMSCAN c10Seventeen = Except.error PyErr.indexError :=
  ⟨by decide,
   (short_line_fails c10Seventeen (by decide)).2.2.1 ("3") ("4") rfl rfl rfl rfl rfl (by decide)⟩
